import Mathlib

/-
Verification of the njord query-builder / migration CLI repository.

The CLI command layer is embedded from src/njord_cli/src/command.rs.
The library core (value model, condition engine, query builders, adapters)
is not present in the repository sources, only its tests and callers are;
those parts are modelled from the specification, as marked on each
definition.
-/

namespace Njord

/-! ## CLI command layer, embedded from src/njord_cli/src/command.rs -/

/-- Parsed option arguments of one subcommand invocation: the named string
arguments that were present on the command line (clap ArgMatches restricted
to what command.rs reads via get_one). -/
structure SubMatches where
  args : List (String × String)
deriving DecidableEq

/-- Embeds ArgMatches.get_one: the value of a named argument, when present. -/
def SubMatches.get_one (m : SubMatches) (key : String) : Option String :=
  List.lookup key m.args

/-- Embeds the one level of clap ArgMatches that command.rs inspects: the
selected subcommand name together with its own matches. -/
structure ArgMatches where
  sub : Option (String × SubMatches)
deriving DecidableEq

/-- A call into the migration engine with exactly the arguments the command
layer forwards (crate::migration::generate, run, rollback). -/
inductive EngineCall where
  | generate (name env dry_run : Option String)
  | run (env log_level : Option String)
  | rollback (env to_version log_level : Option String)
deriving DecidableEq

/-- The observable action of the command layer: delegate to the migration
engine, perform setup, or terminate the process with an exit code. -/
inductive CliAction where
  | engine (call : EngineCall)
  | setup
  | exit (code : Nat)
deriving DecidableEq

/-- Embeds handle_migration_subcommand from command.rs: dispatch on the
migration subcommand, forwarding the named arguments to the engine, and
exiting with code 1 on an invalid subcommand. -/
def handle_migration_subcommand (sub_matches : ArgMatches) : CliAction :=
  match sub_matches.sub with
  | some ("generate", m) =>
      CliAction.engine
        (EngineCall.generate (m.get_one "name") (m.get_one "env") (m.get_one "dry-run"))
  | some ("run", m) =>
      CliAction.engine
        (EngineCall.run (m.get_one "env") (m.get_one "log-level"))
  | some ("rollback", m) =>
      CliAction.engine
        (EngineCall.rollback (m.get_one "env") (m.get_one "to") (m.get_one "log-level"))
  | _ => CliAction.exit 1

/-- Embeds handle_command from command.rs: dispatch on the top-level command,
exiting with code 1 on an invalid command. -/
def handle_command (cmd : String) (sub_matches : ArgMatches) : CliAction :=
  match cmd with
  | "migration" => handle_migration_subcommand sub_matches
  | "setup" => CliAction.setup
  | _ => CliAction.exit 1

/-- Modelled from the spec: the migration engine (crate::migration, not in
the sources) surfaces failures as explicit result values and never
terminates the process itself. -/
inductive EngineResult where
  | ok
  | err (message : String)
deriving DecidableEq

/-- True exactly when an engine result is a success. -/
def engine_succeeded : EngineResult → Bool
  | EngineResult.ok => true
  | EngineResult.err _ => false

/-- Modelled from the spec: the process exit code of one CLI invocation.
The command layer is embedded from command.rs; the conversion of an engine
failure into exit code 1 (and of success into exit code 0) is the missing
main wiring, modelled from the spec sentence on exit codes. -/
def cli_exit_code (engine : EngineCall → EngineResult) (cmd : String)
    (sub_matches : ArgMatches) : Nat :=
  match handle_command cmd sub_matches with
  | CliAction.exit code => code
  | CliAction.setup => 0
  | CliAction.engine call => if engine_succeeded (engine call) then 0 else 1

/-- True exactly when a CLI action counts as a successful invocation: setup,
or an engine call the engine completes without error. -/
def action_succeeds (engine : EngineCall → EngineResult) : CliAction → Bool
  | CliAction.exit _ => false
  | CliAction.setup => true
  | CliAction.engine call => engine_succeeded (engine call)

/-! ## File system model for handle_setup (src/njord_cli/src/command.rs) -/

/-- A path is modelled as its list of segments, so that joining and the
question of a per-backend subdirectory segment are structural. -/
abbrev FsPath := List String

/-- A snapshot of the relevant file system: regular files with their string
contents, and the set of directories that exist. -/
structure FileSystem where
  files : List (FsPath × String)
  dirs : List FsPath
deriving DecidableEq

/-- The content stored at a path, when a regular file exists there. -/
def FileSystem.read (fs : FileSystem) (path : FsPath) : Option String :=
  List.lookup path fs.files

/-- Embeds Path.exists as used by handle_setup: something (file or
directory) exists at the path. -/
def FileSystem.path_exists (fs : FileSystem) (path : FsPath) : Bool :=
  (List.lookup path fs.files).isSome || fs.dirs.contains path

/-- Embeds fs::write: create or overwrite the regular file at a path. -/
def FileSystem.write (fs : FileSystem) (path : FsPath) (content : String) :
    FileSystem :=
  { fs with files := (path, content) :: fs.files.filter (fun p => p.1 != path) }

/-- Embeds fs::create_dir_all: record the directory as existing. -/
def FileSystem.create_dir_all (fs : FileSystem) (path : FsPath) : FileSystem :=
  { fs with dirs := path :: fs.dirs }

/-- Outcomes of the fallible operating-system calls handle_setup performs;
command.rs reports each failure on stderr and otherwise continues (except
for directory creation, whose failure returns early). -/
structure SetupOutcomes where
  current_dir_ok : Bool
  write_toml_ok : Bool
  create_dir_ok : Bool
  write_up_ok : Bool
  write_down_ok : Bool
deriving DecidableEq

/-- The destination path of the njord.toml config file. -/
def toml_path : FsPath := ["njord.toml"]

/-- The destination directory of the initial migration unit, embedded from
the literal migrations/00000000000000_njord_initial_setup in handle_setup.
Note there is no backend subdirectory segment in the destination. -/
def initial_migration_dir : FsPath :=
  ["migrations", "00000000000000_njord_initial_setup"]

/-- Embeds write_migration_file from command.rs: write the named file inside
the migrations directory; on error only a message is printed. -/
def write_migration_file (ok : Bool) (fs : FileSystem) (migrations_path : FsPath)
    (file_name : String) (content : String) : FileSystem :=
  if ok then fs.write (migrations_path ++ [file_name]) content else fs

/-- Embeds handle_setup from command.rs. The three template strings are the
contents bundled via include_str (njord.toml and the sqlite up/down
templates); they are parameters because the template files are outside the
sources. Skips the njord.toml copy when the file exists, skips migration
creation when the directory exists, and returns early when directory
creation fails. -/
def handle_setup (o : SetupOutcomes) (toml_content up_content down_content : String)
    (fs : FileSystem) : FileSystem :=
  if o.current_dir_ok then
    let fs1 :=
      if !(fs.path_exists toml_path) then
        (if o.write_toml_ok then fs.write toml_path toml_content else fs)
      else fs
    if !(fs1.path_exists initial_migration_dir) then
      if o.create_dir_ok then
        let fs2 := fs1.create_dir_all initial_migration_dir
        let fs3 := write_migration_file o.write_up_ok fs2 initial_migration_dir
          "up.sql" up_content
        write_migration_file o.write_down_ok fs3 initial_migration_dir
          "down.sql" down_content
      else fs1
    else fs1
  else fs

/-- All operating-system calls succeed. -/
def all_ok : SetupOutcomes :=
  { current_dir_ok := true, write_toml_ok := true, create_dir_ok := true,
    write_up_ok := true, write_down_ok := true }

/-- A fresh project directory: no files, no directories. -/
def empty_fs : FileSystem := { files := [], dirs := [] }

/-! ## Value model (spec section 3), modelled from the spec -/

/-- Modelled from the spec: the backend-agnostic Value tagged union
(Null, Integer i64, Real f64, Text, Blob); the njord value type itself is
not in the sources, only its use in the tests. Machine reals (f64) are
modelled as rationals and blob bytes as naturals. -/
inductive Value where
  | null
  | integer (i : Int)
  | real (r : Rat)
  | text (s : String)
  | blob (b : List Nat)
deriving DecidableEq

/-- A result row: a mapping from column name to Value, in column order. -/
abbrev Row := List (String × Value)

/-- Modelled from the spec: a native sqlite driver cell (the rusqlite value
kinds the sqlite test matches on: Null, Integer, Real, Text, Blob). -/
inductive SqliteNativeCell where
  | null
  | integer (i : Int)
  | real (r : Rat)
  | text (s : String)
  | blob (b : List Nat)
deriving DecidableEq

/-- Modelled from the spec: native oracle driver cell kinds (numbers,
character data, dates, raw bytes, null), deliberately shaped differently
from the sqlite natives. -/
inductive OracleNativeCell where
  | number (num : Int) (scale : Nat)
  | varchar2 (s : String)
  | date (iso : String)
  | raw (b : List Nat)
  | nothing
deriving DecidableEq

/-- Modelled from the spec: the sqlite adapter maps every native cell into
the uniform value model. -/
def sqlite_decode : SqliteNativeCell → Value
  | SqliteNativeCell.null => Value.null
  | SqliteNativeCell.integer i => Value.integer i
  | SqliteNativeCell.real r => Value.real r
  | SqliteNativeCell.text s => Value.text s
  | SqliteNativeCell.blob b => Value.blob b

/-- Modelled from the spec: the oracle adapter coerces every native cell
into the same uniform value model (scaled numbers become reals, dates become
text, raw bytes become blobs). -/
def oracle_decode : OracleNativeCell → Value
  | OracleNativeCell.number num 0 => Value.integer num
  | OracleNativeCell.number num (n + 1) => Value.real (Rat.divInt num ((10 : Int) ^ (n + 1)))
  | OracleNativeCell.varchar2 s => Value.text s
  | OracleNativeCell.date iso => Value.text iso
  | OracleNativeCell.raw b => Value.blob b
  | OracleNativeCell.nothing => Value.null

/-- Holds exactly when a value is one of the five variants of the value
model. -/
def value_in_model (v : Value) : Prop :=
  v = Value.null ∨ (∃ i, v = Value.integer i) ∨ (∃ r, v = Value.real r) ∨
    (∃ s, v = Value.text s) ∨ (∃ b, v = Value.blob b)

/-- Decode a full native sqlite row into the value model. -/
def sqlite_decode_row (row : List (String × SqliteNativeCell)) : Row :=
  row.map (fun p => (p.1, sqlite_decode p.2))

/-- Decode a full native oracle row into the value model. -/
def oracle_decode_row (row : List (String × OracleNativeCell)) : Row :=
  row.map (fun p => (p.1, oracle_decode p.2))

/-! ## Schema descriptors and the condition engine, modelled from the spec -/

/-- Modelled from the spec: one column definition of a schema descriptor
(name, declared SQL type, primary-key flag, auto-increment flag,
nullability). -/
structure ColumnDef where
  name : String
  sql_type : String
  is_primary_key : Bool
  is_auto_increment : Bool
  is_nullable : Bool
deriving DecidableEq

/-- Modelled from the spec: per-entity schema descriptor with table name and
ordered column definitions. -/
structure SchemaDescriptor where
  table_name : String
  columns : List ColumnDef
deriving DecidableEq

/-- Whether the descriptor declares a column of the given name. -/
def SchemaDescriptor.has_column (d : SchemaDescriptor) (c : String) : Bool :=
  d.columns.any (fun col => col.name == c)

/-- Modelled from the spec: a literal supplied inside a condition (text or
numeric). -/
inductive CondLiteral where
  | text (s : String)
  | numeric (n : Int)
deriving DecidableEq

/-- Modelled from the spec: the condition expression tree — equality leaves
comparing a named column to a literal, and logical combinators. -/
inductive Condition where
  | eq (column : String) (lit : CondLiteral)
  | and (a b : Condition)
  | or (a b : Condition)
  | not (a : Condition)
deriving DecidableEq

/-- Whether every column a condition references exists in the descriptor. -/
def refs_only : Condition → SchemaDescriptor → Bool
  | Condition.eq c _, d => d.has_column c
  | Condition.and a b, d => refs_only a d && refs_only b d
  | Condition.or a b, d => refs_only a d && refs_only b d
  | Condition.not a, d => refs_only a d

/-- Rendering failure: a referenced column is absent from the descriptor. -/
inductive RenderError where
  | unknown_column (name : String)
deriving DecidableEq

/-- Modelled from the spec: lower a condition to a parameterized SQL
fragment plus the bound literal list in stable order; literals are never
interpolated into the text, each leaf emits a placeholder, and combinators
parenthesize their subtrees. Fails with unknown_column when a referenced
column is absent from the descriptor. -/
def render : Condition → SchemaDescriptor →
    Except RenderError (String × List CondLiteral)
  | Condition.eq c lit, d =>
      if d.has_column c then Except.ok (c ++ " = ?", [lit])
      else Except.error (RenderError.unknown_column c)
  | Condition.and a b, d => do
      let (sa, la) ← render a d
      let (sb, lb) ← render b d
      Except.ok ("(" ++ sa ++ " AND " ++ sb ++ ")", la ++ lb)
  | Condition.or a b, d => do
      let (sa, la) ← render a d
      let (sb, lb) ← render b d
      Except.ok ("(" ++ sa ++ " OR " ++ sb ++ ")", la ++ lb)
  | Condition.not a, d => do
      let (sa, la) ← render a d
      Except.ok ("(NOT " ++ sa ++ ")", la)

/-- The literals of a condition in left-to-right (binding) order. -/
def literals_of : Condition → List CondLiteral
  | Condition.eq _ lit => [lit]
  | Condition.and a b => literals_of a ++ literals_of b
  | Condition.or a b => literals_of a ++ literals_of b
  | Condition.not a => literals_of a

/-- Replace every literal of a condition, keeping its shape and columns. -/
def map_literals (f : CondLiteral → CondLiteral) : Condition → Condition
  | Condition.eq c lit => Condition.eq c (f lit)
  | Condition.and a b => Condition.and (map_literals f a) (map_literals f b)
  | Condition.or a b => Condition.or (map_literals f a) (map_literals f b)
  | Condition.not a => Condition.not (map_literals f a)

/-- The SQL text a condition renders to, by shape alone: it mentions column
names, operators and placeholders, never a literal. -/
def sql_shape : Condition → String
  | Condition.eq c _ => c ++ " = ?"
  | Condition.and a b => "(" ++ sql_shape a ++ " AND " ++ sql_shape b ++ ")"
  | Condition.or a b => "(" ++ sql_shape a ++ " OR " ++ sql_shape b ++ ")"
  | Condition.not a => "(NOT " ++ sql_shape a ++ ")"

/-! ## SELECT builder, modelled from the spec (spec section 4.2) -/

/-- Modelled from the spec: a sqlite connection as the builders see it — the
stored tables (rows per table name), a flag standing for backend execution
failure, and the log of SQL statements the backend has received. -/
structure SqliteConnection where
  tables : List (String × List Row)
  exec_fails : Bool
  log : List String
deriving DecidableEq

/-- Evaluate a condition on a row: an equality leaf compares the named
column value with the literal (text to text, numeric to integer). -/
def eval_condition : Condition → Row → Bool
  | Condition.eq c lit, row =>
      match List.lookup c row, lit with
      | some (Value.text s), CondLiteral.text t => s == t
      | some (Value.integer i), CondLiteral.numeric n => i == n
      | _, _ => false
  | Condition.and a b, row => eval_condition a row && eval_condition b row
  | Condition.or a b, row => eval_condition a row || eval_condition b row
  | Condition.not a, row => !(eval_condition a row)

/-- Project a row onto the selected columns, in the selected order. -/
def project (columns : List String) (row : Row) : Row :=
  columns.filterMap (fun c => (List.lookup c row).map (fun v => (c, v)))

/-- Modelled from the spec: the staged state of a SELECT builder — the
connection taken at the select stage, the selected columns, and the optional
from / where / distinct / limit / offset stages. -/
structure SelectQueryBuilder where
  conn : SqliteConnection
  columns : List String
  from_clause : Option SchemaDescriptor
  where_c : Option Condition
  distinct_flag : Bool
  limit_v : Option Nat
  offset_v : Option Nat
deriving DecidableEq

/-- Modelled from the spec: sqlite select(conn, columns) opens the staged
pipeline with no optional stage set. -/
def select (conn : SqliteConnection) (columns : List String) : SelectQueryBuilder :=
  { conn := conn, columns := columns, from_clause := none, where_c := none,
    distinct_flag := false, limit_v := none, offset_v := none }

/-- Stage from(descriptor): record the source table. -/
def SelectQueryBuilder.from_entity (b : SelectQueryBuilder)
    (d : SchemaDescriptor) : SelectQueryBuilder :=
  { b with from_clause := some d }

/-- Stage where_clause(condition): record the filter. -/
def SelectQueryBuilder.where_clause (b : SelectQueryBuilder)
    (c : Condition) : SelectQueryBuilder :=
  { b with where_c := some c }

/-- Stage distinct(): set the distinct flag. -/
def SelectQueryBuilder.distinct (b : SelectQueryBuilder) : SelectQueryBuilder :=
  { b with distinct_flag := true }

/-- Stage limit(n). -/
def SelectQueryBuilder.limit (b : SelectQueryBuilder) (n : Nat) : SelectQueryBuilder :=
  { b with limit_v := some n }

/-- Stage offset(n). -/
def SelectQueryBuilder.offset (b : SelectQueryBuilder) (n : Nat) : SelectQueryBuilder :=
  { b with offset_v := some n }

/-- Failure of a SELECT build: a missing required stage, a column unknown to
the descriptor, or a backend execution failure. -/
inductive SelectError where
  | validation_error (message : String)
  | unknown_column (name : String)
  | query_error (message : String)
deriving DecidableEq

/-- Render the optional where clause: no clause renders to the empty
fragment and binds nothing. -/
def render_where (c : Option Condition) (d : SchemaDescriptor) :
    Except RenderError (String × List CondLiteral) :=
  match c with
  | none => Except.ok ("", [])
  | some cond => render cond d

/-- The full SELECT statement text sent to the backend. -/
def select_sql (columns : List String) (distinct_flag : Bool)
    (table_name : String) (where_sql : String) : String :=
  "SELECT " ++ (if distinct_flag then "DISTINCT " else "") ++
    String.intercalate ", " columns ++ " FROM " ++ table_name ++
    (if where_sql = "" then "" else " WHERE " ++ where_sql)

/-- Modelled from the spec: build() validates the staged state, renders one
parameterized statement, sends it to the backend, and decodes the resulting
rows. Nothing is sent when validation fails; the returned connection
carries the statement log. Row semantics: filter by the where condition,
project onto the selected columns, deduplicate under distinct, then apply
offset and limit. -/
def SelectQueryBuilder.build (b : SelectQueryBuilder) :
    Except SelectError (List Row) × SqliteConnection :=
  match b.from_clause with
  | none =>
      (Except.error (SelectError.validation_error "SELECT requires a from stage"), b.conn)
  | some d =>
      match render_where b.where_c d with
      | Except.error (RenderError.unknown_column c) =>
          (Except.error (SelectError.unknown_column c), b.conn)
      | Except.ok (where_sql, _lits) =>
          let sql := select_sql b.columns b.distinct_flag d.table_name where_sql
          let conn2 := { b.conn with log := b.conn.log ++ [sql] }
          if b.conn.exec_fails then
            (Except.error (SelectError.query_error sql), conn2)
          else
            let rows := (List.lookup d.table_name b.conn.tables).getD []
            let matched :=
              match b.where_c with
              | none => rows
              | some c => rows.filter (eval_condition c)
            let projected := matched.map (project b.columns)
            let deduped := if b.distinct_flag then projected.dedup else projected
            let final := match b.limit_v with
              | none => deduped.drop (b.offset_v.getD 0)
              | some n => (deduped.drop (b.offset_v.getD 0)).take n
            (Except.ok final, conn2)

/-- Deep embedding of the optional SELECT stages, used to state that stage
application is inert (sends no SQL). -/
inductive SelectStage where
  | from_entity (d : SchemaDescriptor)
  | where_clause (c : Condition)
  | distinct
  | limit (n : Nat)
  | offset (n : Nat)
deriving DecidableEq

/-- Apply one staged call to the builder. -/
def apply_stage (b : SelectQueryBuilder) : SelectStage → SelectQueryBuilder
  | SelectStage.from_entity d => b.from_entity d
  | SelectStage.where_clause c => b.where_clause c
  | SelectStage.distinct => b.distinct
  | SelectStage.limit n => b.limit n
  | SelectStage.offset n => b.offset n

/-- Apply a whole sequence of staged calls. -/
def run_stages (b : SelectQueryBuilder) (stages : List SelectStage) :
    SelectQueryBuilder :=
  stages.foldl apply_stage b

/-! ## UPDATE builder, modelled from the spec (spec section 4.2) -/

/-- Modelled from the spec: the staged state of an UPDATE builder — the
default entity whose column values are written, the columns set() restricts
rewriting to, and the optional where / limit / offset stages. -/
structure UpdateQueryBuilder where
  entity : Row
  set_columns : List String
  where_c : Option Condition
  limit_v : Option Nat
  offset_v : Option Nat
deriving DecidableEq

/-- Modelled from the spec: update(default_entity) opens the staged
pipeline. -/
def update (entity : Row) : UpdateQueryBuilder :=
  { entity := entity, set_columns := [], where_c := none, limit_v := none,
    offset_v := none }

/-- Stage set(columns): restrict which columns are rewritten. -/
def UpdateQueryBuilder.set (b : UpdateQueryBuilder) (columns : List String) :
    UpdateQueryBuilder :=
  { b with set_columns := columns }

/-- Stage where_clause(condition). -/
def UpdateQueryBuilder.where_clause (b : UpdateQueryBuilder) (c : Condition) :
    UpdateQueryBuilder :=
  { b with where_c := some c }

/-- Stage limit(n). -/
def UpdateQueryBuilder.limit (b : UpdateQueryBuilder) (n : Nat) :
    UpdateQueryBuilder :=
  { b with limit_v := some n }

/-- Stage offset(n). -/
def UpdateQueryBuilder.offset (b : UpdateQueryBuilder) (n : Nat) :
    UpdateQueryBuilder :=
  { b with offset_v := some n }

/-- Overwrite in a row the listed columns with the entity values. -/
def set_cols (entity : Row) (columns : List String) (row : Row) : Row :=
  row.map (fun p =>
    if columns.contains p.1 then (p.1, (List.lookup p.1 entity).getD p.2) else p)

/-- Whether a row matches the optional where condition (a missing condition
matches every row, the documented update-all danger). -/
def matches_where (c : Option Condition) (row : Row) : Bool :=
  match c with
  | none => true
  | some cond => eval_condition cond row

/-- The indices of the rows an UPDATE build touches: the matching indices,
after offset, capped by limit. -/
def affected_indices (b : UpdateQueryBuilder) (table : List Row) : List Nat :=
  let matching := (List.range table.length).filter
    (fun i => matches_where b.where_c (table.getD i []))
  let off := matching.drop (b.offset_v.getD 0)
  match b.limit_v with
  | none => off
  | some n => off.take n

/-- Modelled from the spec: build(connection) for UPDATE — validates that
set() restricted at least one column, rewrites the set columns of every
affected row, and reports the affected row count. -/
def UpdateQueryBuilder.build (b : UpdateQueryBuilder) (table : List Row) :
    Except SelectError (List Row × Nat) :=
  if b.set_columns.isEmpty then
    Except.error (SelectError.validation_error "UPDATE requires a set stage")
  else
    let affected := affected_indices b table
    let rewritten := (List.range table.length).map (fun i =>
      if affected.contains i then set_cols b.entity b.set_columns (table.getD i [])
      else table.getD i [])
    Except.ok (rewritten, affected.length)

/-! ## Observed adapter interfaces (C8), embedded from the test sources -/

/-- Embedded from src/njord/tests/sqlite_test.rs: the sqlite condition type
whose Eq constructor takes the column name and a plain string literal. -/
inductive SqliteCondition where
  | Eq (column : String) (value : String)
deriving DecidableEq

/-- Embedded from src/njord/tests/oracle/update_test.rs: the literal value
type of the generic condition (njord::condition::Value). -/
inductive CondValue where
  | Literal (s : String)
deriving DecidableEq

/-- Embedded from src/njord/tests/oracle/update_test.rs: the generic
condition type whose Eq constructor takes the column name and a wrapped
Value literal. -/
inductive GenericCondition where
  | Eq (column : String) (value : CondValue)
deriving DecidableEq

/-- Kinds of constructor arguments observed in the two condition APIs. -/
inductive ArgKind where
  | string_arg
  | value_arg
deriving DecidableEq

/-- The argument shape of a sqlite condition constructor as the sqlite test
applies it: column name (string) and plain string literal. -/
def sqlite_condition_shape : SqliteCondition → List ArgKind
  | SqliteCondition.Eq _ _ => [ArgKind.string_arg, ArgKind.string_arg]

/-- The argument shape of a generic condition constructor as the oracle test
applies it: column name (string) and a Value literal. -/
def generic_condition_shape : GenericCondition → List ArgKind
  | GenericCondition.Eq _ _ => [ArgKind.string_arg, ArgKind.value_arg]

/-- The translation between the two interfaces: a plain sqlite string
literal corresponds to a wrapped Value literal. -/
def to_generic_condition : SqliteCondition → GenericCondition
  | SqliteCondition.Eq c v => GenericCondition.Eq c (CondValue.Literal v)

/-! ## Concrete scenarios embedded from the tests -/

/-- The schema descriptor of the TableA entity of sqlite_test.rs (title,
description, amount). -/
def table_a_descriptor : SchemaDescriptor :=
  { table_name := "table_a",
    columns :=
      [ { name := "title", sql_type := "TEXT", is_primary_key := false,
          is_auto_increment := false, is_nullable := false },
        { name := "description", sql_type := "TEXT", is_primary_key := false,
          is_auto_increment := false, is_nullable := false },
        { name := "amount", sql_type := "INTEGER", is_primary_key := false,
          is_auto_increment := false, is_nullable := false } ] }

/-- The description text the sqlite tests filter on. -/
def the_description : String := "Some description for Table A"

/-- One of the two identical matching rows of the select scenarios. -/
def row_a : Row :=
  [("title", Value.text "Table A"), ("description", Value.text the_description),
   ("amount", Value.integer 0)]

/-- The third row, with a different description. -/
def row_c : Row :=
  [("title", Value.text "Table C"), ("description", Value.text "Other description"),
   ("amount", Value.integer 3)]

/-- The connection holding the three scenario rows, two of them identical
and carrying the filtered description. -/
def scenario_conn : SqliteConnection :=
  { tables := [("table_a", [row_a, row_a, row_c])], exec_fails := false, log := [] }

/-- The selected columns of the sqlite select tests. -/
def scenario_columns : List String := ["title", "description", "amount"]

/-- The condition of the sqlite select tests: description equals the
scenario text. -/
def scenario_condition : Condition :=
  Condition.eq "description" (CondLiteral.text the_description)

/-- The default User entity of the oracle update test (auto-increment id
left to the backend, empty strings elsewhere). -/
def user_default : Row :=
  [("id", Value.integer 0), ("username", Value.text ""),
   ("email", Value.text ""), ("address", Value.text "")]

/-- The condition of the oracle update test. -/
def update_condition : Condition :=
  Condition.eq "username" (CondLiteral.text "chasewillden2")

/-- The fully staged UPDATE builder of the oracle update test. -/
def scenario_update_builder : UpdateQueryBuilder :=
  ((((update user_default).set ["username"]).where_clause update_condition).limit
    4).offset 0

/-- A compound condition over the TableA descriptor, used to instantiate the
render property at a concrete input. -/
def witness_condition : Condition :=
  Condition.and (Condition.eq "description" (CondLiteral.text the_description))
    (Condition.not (Condition.eq "amount" (CondLiteral.numeric 0)))

/-! ## Helper lemmas -/

theorem handle_migration_subcommand_exit_one (sub_matches : ArgMatches) (code : Nat)
    (h : handle_migration_subcommand sub_matches = CliAction.exit code) : code = 1 := by
  unfold handle_migration_subcommand at h
  split at h <;> simp_all

theorem handle_command_exit_one (cmd : String) (sub_matches : ArgMatches) (code : Nat)
    (h : handle_command cmd sub_matches = CliAction.exit code) : code = 1 := by
  unfold handle_command at h
  split at h
  · exact handle_migration_subcommand_exit_one _ _ h
  · simp_all
  · simp_all

/-! ## Claim theorems -/

/-- C3: the CLI terminates with exit code 1 exactly when the subcommand is
invalid or the migration engine fails, with 0 on success; the command layer
produces only exit code 1 itself (every nonzero exit comes from it, the
engine only returns result values). -/
theorem cli_exit_code_policy (engine : EngineCall → EngineResult) (cmd : String)
    (sub_matches : ArgMatches) :
    cli_exit_code engine cmd sub_matches =
      (if action_succeeds engine (handle_command cmd sub_matches) then 0 else 1) ∧
    (∀ code, handle_command cmd sub_matches = CliAction.exit code → code = 1) ∧
    (cmd ≠ "migration" → cmd ≠ "setup" → cli_exit_code engine cmd sub_matches = 1) := by
  refine ⟨?_, fun code h => handle_command_exit_one cmd sub_matches code h, ?_⟩
  · cases h : handle_command cmd sub_matches with
    | engine call => simp [cli_exit_code, h, action_succeeds]
    | setup => simp [cli_exit_code, h, action_succeeds]
    | exit code =>
        have hcode : code = 1 := handle_command_exit_one cmd sub_matches code h
        subst hcode
        simp [cli_exit_code, h, action_succeeds]
  · intro h1 h2
    have hc : handle_command cmd sub_matches = CliAction.exit 1 := by
      unfold handle_command
      split <;> simp_all
    simp [cli_exit_code, hc]

/-- C4: the command layer forwards exactly the observed argument sets to
the engine — generate receives name, env and dry-run, run receives env and
log-level, rollback receives env, to and log-level — and no other engine
operation is reachable from it. -/
theorem migration_subcommand_forwarding (m : SubMatches) :
    handle_migration_subcommand ⟨some ("generate", m)⟩ =
      CliAction.engine
        (EngineCall.generate (m.get_one "name") (m.get_one "env") (m.get_one "dry-run")) ∧
    handle_migration_subcommand ⟨some ("run", m)⟩ =
      CliAction.engine (EngineCall.run (m.get_one "env") (m.get_one "log-level")) ∧
    handle_migration_subcommand ⟨some ("rollback", m)⟩ =
      CliAction.engine
        (EngineCall.rollback (m.get_one "env") (m.get_one "to") (m.get_one "log-level")) ∧
    (∀ sub_matches call,
      handle_migration_subcommand sub_matches = CliAction.engine call →
      (∃ m2, sub_matches = ⟨some ("generate", m2)⟩ ∧
        call = EngineCall.generate (m2.get_one "name") (m2.get_one "env")
          (m2.get_one "dry-run")) ∨
      (∃ m2, sub_matches = ⟨some ("run", m2)⟩ ∧
        call = EngineCall.run (m2.get_one "env") (m2.get_one "log-level")) ∨
      (∃ m2, sub_matches = ⟨some ("rollback", m2)⟩ ∧
        call = EngineCall.rollback (m2.get_one "env") (m2.get_one "to")
          (m2.get_one "log-level"))) := by
  refine ⟨rfl, rfl, rfl, ?_⟩
  intro sub_matches call h
  obtain ⟨sub⟩ := sub_matches
  unfold handle_migration_subcommand at h
  split at h
  · rename_i m2 heq
    replace heq : sub = some ("generate", m2) := heq
    subst heq
    exact Or.inl ⟨m2, rfl, by injection h with h1; exact h1.symm⟩
  · rename_i m2 heq
    replace heq : sub = some ("run", m2) := heq
    subst heq
    exact Or.inr (Or.inl ⟨m2, rfl, by injection h with h1; exact h1.symm⟩)
  · rename_i m2 heq
    replace heq : sub = some ("rollback", m2) := heq
    subst heq
    exact Or.inr (Or.inr ⟨m2, rfl, by injection h with h1; exact h1.symm⟩)
  · exact absurd h (by simp)

/-- C1: on the three scenario rows, of which exactly the two identical ones
carry the filtered description, the staged select with the equality
condition returns exactly those two rows, and the same query with distinct
added returns exactly one row. -/
theorem select_scenario_counts :
    eval_condition scenario_condition row_a = true ∧
    eval_condition scenario_condition row_c = false ∧
    ((((select scenario_conn scenario_columns).from_entity
        table_a_descriptor).where_clause scenario_condition).build).1 =
      Except.ok [row_a, row_a] ∧
    (((((select scenario_conn scenario_columns).from_entity
        table_a_descriptor).where_clause scenario_condition).distinct).build).1 =
      Except.ok [row_a] ∧
    ([row_a, row_a] : List Row).length = 2 ∧ ([row_a] : List Row).length = 1 :=
  ⟨rfl, rfl, rfl, rfl, rfl, rfl⟩

/-- C7: every cell any backend adapter returns is exactly one of the five
variants of the uniform value model: both decoders are total into Value,
every decoded row cell lies in the model, and the model has no other
shape. -/
theorem adapters_uniform_value_model :
    (∀ cell : SqliteNativeCell, value_in_model (sqlite_decode cell)) ∧
    (∀ cell : OracleNativeCell, value_in_model (oracle_decode cell)) ∧
    (∀ row : List (String × SqliteNativeCell),
      ∀ p ∈ sqlite_decode_row row, value_in_model p.2) ∧
    (∀ row : List (String × OracleNativeCell),
      ∀ p ∈ oracle_decode_row row, value_in_model p.2) ∧
    (∀ v : Value, value_in_model v) := by
  have hv : ∀ v : Value, value_in_model v := by
    intro v
    cases v <;> simp [value_in_model]
  exact ⟨fun c => hv _, fun c => hv _, fun row p _ => hv _, fun row p _ => hv _, hv⟩

/-- C8 counterexample: at the concrete inputs of the two tests, the sqlite
condition constructor and the generic condition constructor used with the
oracle adapter do not have the same argument shape — the sqlite Eq takes a
plain string literal where the generic Eq takes a wrapped Value literal. -/
theorem condition_shape_counterexample :
    ¬ sqlite_condition_shape (SqliteCondition.Eq "username" "chasewillden2") =
      generic_condition_shape
        (GenericCondition.Eq "username" (CondValue.Literal "chasewillden2")) := by
  decide

/-- C8 amended: the two adapter interfaces expose equality constructors of
the same name that translate into each other by wrapping the plain string
literal as a Value literal, but their argument shapes differ between the
adapters. -/
theorem condition_interfaces_share_names_not_shapes (col v : String) :
    sqlite_condition_shape (SqliteCondition.Eq col v) =
      [ArgKind.string_arg, ArgKind.string_arg] ∧
    generic_condition_shape (GenericCondition.Eq col (CondValue.Literal v)) =
      [ArgKind.string_arg, ArgKind.value_arg] ∧
    to_generic_condition (SqliteCondition.Eq col v) =
      GenericCondition.Eq col (CondValue.Literal v) ∧
    sqlite_condition_shape (SqliteCondition.Eq col v) ≠
      generic_condition_shape (GenericCondition.Eq col (CondValue.Literal v)) :=
  ⟨rfl, rfl, rfl, by simp [sqlite_condition_shape, generic_condition_shape]⟩

theorem lookup_filter_of_ne {β : Type} (l : List (FsPath × β)) {p q : FsPath}
    (h : q ≠ p) :
    List.lookup q (l.filter (fun x => x.1 != p)) = List.lookup q l := by
  induction l with
  | nil => rfl
  | cons a l ih =>
      obtain ⟨k, v⟩ := a
      by_cases hk : k = p
      · subst hk
        have hq : (q == k) = false := beq_eq_false_iff_ne.mpr h
        simp [List.filter_cons, List.lookup, hq, ih]
      · have hkb : (k != p) = true := bne_iff_ne.mpr hk
        by_cases hq : q = k
        · subst hq
          simp [List.filter_cons, hkb, List.lookup]
        · have hqb : (q == k) = false := beq_eq_false_iff_ne.mpr hq
          simp [List.filter_cons, hkb, List.lookup, hqb, ih]

theorem read_write_self (fs : FileSystem) (p : FsPath) (c : String) :
    (fs.write p c).read p = some c := by
  simp [FileSystem.write, FileSystem.read, List.lookup]

theorem read_write_of_ne (fs : FileSystem) {p q : FsPath} (c : String)
    (h : q ≠ p) : (fs.write p c).read q = fs.read q := by
  have hq : (q == p) = false := beq_eq_false_iff_ne.mpr h
  simp [FileSystem.write, FileSystem.read, List.lookup, hq,
    lookup_filter_of_ne fs.files h]

theorem read_create_dir (fs : FileSystem) (d q : FsPath) :
    (fs.create_dir_all d).read q = fs.read q := rfl

theorem path_exists_write_of_ne (fs : FileSystem) {p q : FsPath} (c : String)
    (h : q ≠ p) : (fs.write p c).path_exists q = fs.path_exists q := by
  have hr : List.lookup q ((p, c) :: List.filter (fun x => x.1 != p) fs.files) =
      List.lookup q fs.files :=
    read_write_of_ne fs c h
  simp [FileSystem.path_exists, FileSystem.write, hr]

/-- C2 counterexample: running setup on a fresh directory writes the
migration scripts directly at migrations/00000000000000_njord_initial_setup
with no per-backend subtype subdirectory — the sqlite-prefixed locations
are absent and no written path has a sqlite segment. -/
theorem setup_layout_counterexample :
    (handle_setup all_ok "toml template" "up template" "down template"
        empty_fs).read (initial_migration_dir ++ ["up.sql"]) = some "up template" ∧
    (handle_setup all_ok "toml template" "up template" "down template"
        empty_fs).read (initial_migration_dir ++ ["down.sql"]) = some "down template" ∧
    (handle_setup all_ok "toml template" "up template" "down template"
        empty_fs).read (initial_migration_dir ++ ["sqlite", "up.sql"]) = none ∧
    (handle_setup all_ok "toml template" "up template" "down template"
        empty_fs).read (initial_migration_dir ++ ["sqlite", "down.sql"]) = none ∧
    ((handle_setup all_ok "toml template" "up template" "down template"
        empty_fs).files.map Prod.fst).all (fun p => !(p.contains "sqlite")) = true := by
  decide

/-- C2 amended: on a fresh project directory, setup creates the njord.toml
config file and the initial migration unit, laying its scripts out as
migrations/00000000000000_njord_initial_setup/up.sql and down.sql directly
inside the unit directory (no per-backend subdirectory), and touches no
other path. -/
theorem setup_scaffolds_config_and_initial_migration (fs : FileSystem)
    (toml_content up_content down_content : String)
    (h1 : fs.path_exists toml_path = false)
    (h2 : fs.path_exists initial_migration_dir = false) :
    (handle_setup all_ok toml_content up_content down_content fs).read toml_path =
      some toml_content ∧
    (handle_setup all_ok toml_content up_content down_content fs).dirs.contains
      initial_migration_dir = true ∧
    (handle_setup all_ok toml_content up_content down_content fs).read
      (initial_migration_dir ++ ["up.sql"]) = some up_content ∧
    (handle_setup all_ok toml_content up_content down_content fs).read
      (initial_migration_dir ++ ["down.sql"]) = some down_content ∧
    (∀ p : FsPath,
      (handle_setup all_ok toml_content up_content down_content fs).read p ≠ fs.read p →
      p = toml_path ∨ p = initial_migration_dir ++ ["up.sql"] ∨
        p = initial_migration_dir ++ ["down.sql"]) := by
  have h2w : (fs.write toml_path toml_content).path_exists initial_migration_dir = false := by
    rw [path_exists_write_of_ne fs toml_content (by decide)]
    exact h2
  have estep : handle_setup all_ok toml_content up_content down_content fs =
      (((fs.write toml_path toml_content).create_dir_all
          initial_migration_dir).write (initial_migration_dir ++ ["up.sql"])
          up_content).write (initial_migration_dir ++ ["down.sql"]) down_content := by
    unfold handle_setup write_migration_file
    simp [all_ok, h1, h2w]
  refine ⟨?_, ?_, ?_, ?_, ?_⟩
  · rw [estep, read_write_of_ne _ _ (by decide), read_write_of_ne _ _ (by decide),
      read_create_dir]
    exact read_write_self fs toml_path toml_content
  · rw [estep]
    simp [FileSystem.write, FileSystem.create_dir_all]
  · rw [estep, read_write_of_ne _ _ (by decide)]
    exact read_write_self _ _ _
  · rw [estep]
    exact read_write_self _ _ _
  · intro p hp
    by_cases e1 : p = toml_path
    · exact Or.inl e1
    by_cases e2 : p = initial_migration_dir ++ ["up.sql"]
    · exact Or.inr (Or.inl e2)
    by_cases e3 : p = initial_migration_dir ++ ["down.sql"]
    · exact Or.inr (Or.inr e3)
    exact absurd (by
      rw [estep, read_write_of_ne _ _ e3, read_write_of_ne _ _ e2, read_create_dir,
        read_write_of_ne _ _ e1]) hp

/-- C2 witness: the amended scaffold theorem instantiated on the fresh
empty file system. -/
theorem setup_scaffolds_witness :
    empty_fs.path_exists toml_path = false ∧
    empty_fs.path_exists initial_migration_dir = false ∧
    ((handle_setup all_ok "t" "u" "d" empty_fs).read toml_path = some "t" ∧
     (handle_setup all_ok "t" "u" "d" empty_fs).dirs.contains
       initial_migration_dir = true ∧
     (handle_setup all_ok "t" "u" "d" empty_fs).read
       (initial_migration_dir ++ ["up.sql"]) = some "u" ∧
     (handle_setup all_ok "t" "u" "d" empty_fs).read
       (initial_migration_dir ++ ["down.sql"]) = some "d" ∧
     (∀ p : FsPath,
       (handle_setup all_ok "t" "u" "d" empty_fs).read p ≠ empty_fs.read p →
       p = toml_path ∨ p = initial_migration_dir ++ ["up.sql"] ∨
         p = initial_migration_dir ++ ["down.sql"])) :=
  ⟨rfl, rfl, setup_scaffolds_config_and_initial_migration empty_fs "t" "u" "d" rfl rfl⟩

/-- C10: re-running setup never overwrites existing project files — an
existing njord.toml keeps its contents, an existing initial migration
directory means no up.sql or down.sql is written, and when directory
creation fails no migration script is written (the scripts only appear
after the directory was successfully created). -/
theorem setup_preserves_existing_files (o : SetupOutcomes)
    (toml_content up_content down_content : String) (fs : FileSystem) :
    (fs.path_exists toml_path = true →
      (handle_setup o toml_content up_content down_content fs).read toml_path =
        fs.read toml_path) ∧
    (fs.path_exists initial_migration_dir = true →
      ((handle_setup o toml_content up_content down_content fs).read
          (initial_migration_dir ++ ["up.sql"]) =
        fs.read (initial_migration_dir ++ ["up.sql"]) ∧
       (handle_setup o toml_content up_content down_content fs).read
          (initial_migration_dir ++ ["down.sql"]) =
        fs.read (initial_migration_dir ++ ["down.sql"]))) ∧
    (o.create_dir_ok = false →
      ((handle_setup o toml_content up_content down_content fs).dirs = fs.dirs ∧
       (handle_setup o toml_content up_content down_content fs).read
          (initial_migration_dir ++ ["up.sql"]) =
        fs.read (initial_migration_dir ++ ["up.sql"]) ∧
       (handle_setup o toml_content up_content down_content fs).read
          (initial_migration_dir ++ ["down.sql"]) =
        fs.read (initial_migration_dir ++ ["down.sql"]))) := by
  have hup : toml_path ≠ initial_migration_dir ++ ["up.sql"] := by decide
  have hdown : toml_path ≠ initial_migration_dir ++ ["down.sql"] := by decide
  have hut : (initial_migration_dir ++ ["up.sql"]) ≠ toml_path := by decide
  have hdt : (initial_migration_dir ++ ["down.sql"]) ≠ toml_path := by decide
  have hud : (initial_migration_dir ++ ["up.sql"]) ≠
      initial_migration_dir ++ ["down.sql"] := by decide
  have hdu : (initial_migration_dir ++ ["down.sql"]) ≠
      initial_migration_dir ++ ["up.sql"] := by decide
  refine ⟨?_, ?_, ?_⟩
  · intro h
    unfold handle_setup write_migration_file
    by_cases hc : o.current_dir_ok
    · simp only [hc, if_true, h, Bool.not_true, Bool.false_eq_true, if_false]
      by_cases hm : fs.path_exists initial_migration_dir
      · simp [hm]
      · simp only [Bool.not_eq_true] at hm
        simp only [hm, Bool.not_false, if_true]
        by_cases hcd : o.create_dir_ok
        · simp only [hcd, if_true]
          cases hu : o.write_up_ok <;> cases hd : o.write_down_ok <;>
            simp [read_write_of_ne, hup, hdown, read_create_dir]
        · simp [hcd]
    · simp [hc]
  · intro h
    by_cases hc : o.current_dir_ok
    · by_cases ht : fs.path_exists toml_path
      · have er : handle_setup o toml_content up_content down_content fs = fs := by
          unfold handle_setup
          simp [hc, ht, h]
        rw [er]
        exact ⟨rfl, rfl⟩
      · simp only [Bool.not_eq_true] at ht
        by_cases hw : o.write_toml_ok
        · have hm2 : (fs.write toml_path toml_content).path_exists
              initial_migration_dir = true := by
            rw [path_exists_write_of_ne fs toml_content (by decide)]
            exact h
          have er : handle_setup o toml_content up_content down_content fs =
              fs.write toml_path toml_content := by
            unfold handle_setup
            simp [hc, ht, hw, hm2]
          rw [er]
          exact ⟨read_write_of_ne fs toml_content hut,
            read_write_of_ne fs toml_content hdt⟩
        · have er : handle_setup o toml_content up_content down_content fs = fs := by
            unfold handle_setup
            simp [hc, ht, hw, h]
          rw [er]
          exact ⟨rfl, rfl⟩
    · have er : handle_setup o toml_content up_content down_content fs = fs := by
        unfold handle_setup
        simp [hc]
      rw [er]
      exact ⟨rfl, rfl⟩
  · intro h
    by_cases hc : o.current_dir_ok
    · by_cases ht : fs.path_exists toml_path
      · have er : handle_setup o toml_content up_content down_content fs = fs := by
          unfold handle_setup
          by_cases hm : fs.path_exists initial_migration_dir
          · simp [hc, ht, hm]
          · simp only [Bool.not_eq_true] at hm
            simp [hc, ht, hm, h]
        rw [er]
        exact ⟨rfl, rfl, rfl⟩
      · simp only [Bool.not_eq_true] at ht
        by_cases hw : o.write_toml_ok
        · have er : handle_setup o toml_content up_content down_content fs =
              fs.write toml_path toml_content := by
            unfold handle_setup
            by_cases hm2 : (fs.write toml_path toml_content).path_exists
                initial_migration_dir
            · simp [hc, ht, hw, hm2]
            · simp only [Bool.not_eq_true] at hm2
              simp [hc, ht, hw, hm2, h]
          rw [er]
          exact ⟨rfl, read_write_of_ne fs toml_content hut,
            read_write_of_ne fs toml_content hdt⟩
        · have er : handle_setup o toml_content up_content down_content fs = fs := by
            unfold handle_setup
            by_cases hm : fs.path_exists initial_migration_dir
            · simp [hc, ht, hw, hm]
            · simp only [Bool.not_eq_true] at hm
              simp [hc, ht, hw, hm, h]
          rw [er]
          exact ⟨rfl, rfl, rfl⟩
    · have er : handle_setup o toml_content up_content down_content fs = fs := by
        unfold handle_setup
        simp [hc]
      rw [er]
      exact ⟨rfl, rfl, rfl⟩

theorem render_eq_of_refs {c : Condition} {d : SchemaDescriptor}
    (h : refs_only c d = true) :
    render c d = Except.ok (sql_shape c, literals_of c) := by
  induction c with
  | eq col lit => simp_all [refs_only, render, sql_shape, literals_of]
  | and a b iha ihb =>
      rw [refs_only, Bool.and_eq_true] at h
      simp only [render, iha h.1, ihb h.2]
      rfl
  | or a b iha ihb =>
      rw [refs_only, Bool.and_eq_true] at h
      simp only [render, iha h.1, ihb h.2]
      rfl
  | not a iha =>
      rw [refs_only] at h
      simp only [render, iha h]
      rfl

theorem render_error_of_refs {c : Condition} {d : SchemaDescriptor}
    (h : refs_only c d = false) :
    ∃ name, render c d = Except.error (RenderError.unknown_column name) := by
  induction c with
  | eq col lit =>
      rw [refs_only] at h
      exact ⟨col, by simp [render, h]⟩
  | and a b iha ihb =>
      rw [refs_only, Bool.and_eq_false_iff] at h
      cases h with
      | inl ha =>
          obtain ⟨n, hn⟩ := iha ha
          exact ⟨n, by simp only [render, hn]; rfl⟩
      | inr hb =>
          obtain ⟨n, hn⟩ := ihb hb
          cases hra : refs_only a d with
          | false =>
              obtain ⟨n2, hn2⟩ := iha hra
              exact ⟨n2, by simp only [render, hn2]; rfl⟩
          | true =>
              exact ⟨n, by simp only [render, render_eq_of_refs hra, hn]; rfl⟩
  | or a b iha ihb =>
      rw [refs_only, Bool.and_eq_false_iff] at h
      cases h with
      | inl ha =>
          obtain ⟨n, hn⟩ := iha ha
          exact ⟨n, by simp only [render, hn]; rfl⟩
      | inr hb =>
          obtain ⟨n, hn⟩ := ihb hb
          cases hra : refs_only a d with
          | false =>
              obtain ⟨n2, hn2⟩ := iha hra
              exact ⟨n2, by simp only [render, hn2]; rfl⟩
          | true =>
              exact ⟨n, by simp only [render, render_eq_of_refs hra, hn]; rfl⟩
  | not a iha =>
      rw [refs_only] at h
      obtain ⟨n, hn⟩ := iha h
      exact ⟨n, by simp only [render, hn]; rfl⟩

theorem sql_shape_map_literals (f : CondLiteral → CondLiteral) (c : Condition) :
    sql_shape (map_literals f c) = sql_shape c := by
  induction c <;> simp_all [map_literals, sql_shape]

theorem literals_of_map_literals (f : CondLiteral → CondLiteral) (c : Condition) :
    literals_of (map_literals f c) = (literals_of c).map f := by
  induction c <;> simp_all [map_literals, literals_of]

theorem refs_only_map_literals (f : CondLiteral → CondLiteral) (c : Condition)
    (d : SchemaDescriptor) : refs_only (map_literals f c) d = refs_only c d := by
  induction c <;> simp_all [map_literals, refs_only]

/-- C9: for every descriptor and every condition referencing only columns of
the descriptor, render succeeds, the bound-parameter list is exactly the
ordered literal list of the condition, and the produced SQL text is
independent of the literal values (replacing every literal leaves the text
unchanged) — so no literal is embedded in the SQL text. -/
theorem render_binds_literals_only (c : Condition) (d : SchemaDescriptor)
    (h : refs_only c d = true) :
    ∃ sql, render c d = Except.ok (sql, literals_of c) ∧
      ∀ f : CondLiteral → CondLiteral,
        render (map_literals f c) d = Except.ok (sql, (literals_of c).map f) := by
  refine ⟨sql_shape c, render_eq_of_refs h, fun f => ?_⟩
  rw [render_eq_of_refs (by rw [refs_only_map_literals]; exact h),
    sql_shape_map_literals, literals_of_map_literals]

/-- C9 witness: the render property instantiated on the TableA descriptor
and a concrete compound condition over its columns. -/
theorem render_binds_literals_only_witness :
    refs_only witness_condition table_a_descriptor = true ∧
    (∃ sql, render witness_condition table_a_descriptor =
        Except.ok (sql, literals_of witness_condition) ∧
      ∀ f : CondLiteral → CondLiteral,
        render (map_literals f witness_condition) table_a_descriptor =
          Except.ok (sql, (literals_of witness_condition).map f)) :=
  ⟨by decide, render_binds_literals_only witness_condition table_a_descriptor (by decide)⟩

theorem apply_stage_conn (b : SelectQueryBuilder) (s : SelectStage) :
    (apply_stage b s).conn = b.conn := by
  cases s <;> rfl

theorem run_stages_conn (stages : List SelectStage) (b : SelectQueryBuilder) :
    (run_stages b stages).conn = b.conn := by
  induction stages generalizing b with
  | nil => rfl
  | cons s stages ih =>
      rw [run_stages, List.foldl_cons]
      rw [show List.foldl apply_stage (apply_stage b s) stages =
        run_stages (apply_stage b s) stages from rfl]
      rw [ih, apply_stage_conn]

theorem build_sends_at_most_one (b : SelectQueryBuilder) :
    ∃ sent : List String, (b.build).2.log = b.conn.log ++ sent ∧ sent.length ≤ 1 := by
  unfold SelectQueryBuilder.build
  cases hf : b.from_clause with
  | none => exact ⟨[], by simp [hf]⟩
  | some d =>
      cases hr : render_where b.where_c d with
      | error e =>
          cases e with
          | unknown_column n => exact ⟨[], by simp [hf, hr]⟩
      | ok pair =>
          obtain ⟨where_sql, lits⟩ := pair
          by_cases he : b.conn.exec_fails
      <;> exact ⟨[select_sql b.columns b.distinct_flag d.table_name where_sql],
            by simp [hf, hr, he]⟩

/-- C6: the SELECT builder is a staged pipeline whose stage calls are inert
— they never touch the connection — while build validates before executing:
without a from stage it fails with a validation error and sends no SQL, a
where clause naming an unknown column fails with an unknown-column error
and sends no SQL, an adapter execution failure surfaces as a query error,
and any build sends at most one statement to the backend. -/
theorem select_staged_pipeline (conn : SqliteConnection) (columns : List String)
    (stages : List SelectStage) (d : SchemaDescriptor) (c : Condition) :
    (run_stages (select conn columns) stages).conn = conn ∧
    (∀ q : SelectQueryBuilder, q.from_clause = none →
      q.build = (Except.error
        (SelectError.validation_error "SELECT requires a from stage"), q.conn)) ∧
    (refs_only c d = false →
      ∃ name, (((select conn columns).from_entity d).where_clause c).build =
        (Except.error (SelectError.unknown_column name), conn)) ∧
    (refs_only c d = true → conn.exec_fails = true →
      ((((select conn columns).from_entity d).where_clause c).build).1 =
        Except.error (SelectError.query_error
          (select_sql columns false d.table_name (sql_shape c)))) ∧
    (∃ sent : List String,
      ((run_stages (select conn columns) stages).build).2.log = conn.log ++ sent ∧
      sent.length ≤ 1) := by
  refine ⟨run_stages_conn stages (select conn columns), ?_, ?_, ?_, ?_⟩
  · intro q hq
    unfold SelectQueryBuilder.build
    rw [hq]
  · intro h
    obtain ⟨name, hn⟩ := render_error_of_refs h
    refine ⟨name, ?_⟩
    unfold SelectQueryBuilder.build
    simp [select, SelectQueryBuilder.from_entity, SelectQueryBuilder.where_clause,
      render_where, hn]
  · intro h he
    have hr := render_eq_of_refs h
    unfold SelectQueryBuilder.build
    simp [select, SelectQueryBuilder.from_entity, SelectQueryBuilder.where_clause,
      render_where, hr, he]
  · have hb := build_sends_at_most_one (run_stages (select conn columns) stages)
    rw [run_stages_conn stages (select conn columns)] at hb
    exact hb

/-- C5: the staged update pipeline of the oracle test — set username, filter
on username equality, limit 4, offset 0 — succeeds on every table, touches
only rows matching the predicate (all other positions are unchanged), and
never affects more rows than the limit. -/
theorem update_scenario_bounded (table : List Row) :
    ∃ rewritten : List Row,
      scenario_update_builder.build table =
        Except.ok (rewritten, (affected_indices scenario_update_builder table).length) ∧
      (affected_indices scenario_update_builder table).length ≤ 4 ∧
      rewritten.length = table.length ∧
      (∀ i ∈ affected_indices scenario_update_builder table,
        eval_condition update_condition (table.getD i []) = true) ∧
      (∀ i : Nat,
        (affected_indices scenario_update_builder table).contains i = false →
        rewritten.getD i [] = table.getD i []) := by
  have ha : affected_indices scenario_update_builder table =
      (((List.range table.length).filter
        (fun i => matches_where (some update_condition) (table.getD i []))).drop
        0).take 4 := rfl
  refine ⟨_, rfl, ?_, ?_, ?_, ?_⟩
  · rw [ha, List.length_take]
    exact min_le_left _ _
  · simp
  · intro i hi
    rw [ha] at hi
    have h1 := List.drop_subset _ _ (List.take_subset _ _ hi)
    have h2 := (List.mem_filter.mp h1).2
    simpa [matches_where] using h2
  · intro i hcontains
    by_cases hlt : i < table.length
    · rw [List.getD_eq_getElem?_getD, List.getElem?_map,
        List.getElem?_range hlt]
      simp only [Option.map_some', Option.getD_some, hcontains,
        Bool.false_eq_true, if_false]
    · have hge : table.length ≤ i := Nat.le_of_not_lt hlt
      rw [List.getD_eq_getElem?_getD, List.getD_eq_getElem?_getD,
        List.getElem?_eq_none (by simpa using hge),
        List.getElem?_eq_none hge]

end Njord
